import Mathlib

/-!
# DialogueRecorder — verification of the Dialogue Classification & Retrieval Engine

Shallow embedding of the core logic of the DialogueRecorder VS Code extension:

* `DialogueListenerService` (src/src/services/DialogueListenerService.ts):
  the heuristic line classifier (`analyzeOutputLine` and its helper
  predicates) and the recording path (`recordDialogue`).
* `DatabaseService` / `SearchService` (src/src/services/DatabaseService.ts):
  the store-level `searchRecords` narrowing, the in-memory conjunctive
  filters of `SearchService.search`, relevance scoring
  (`calculateRelevance`), highlight extraction (`extractHighlights`) and
  `getSessionDetail`.

Strings are modelled as `List Char`.  JavaScript `toLowerCase` is modelled
character-wise by `Char.toLower` (ASCII folding); all strings appearing in
the program's keyword tables are ASCII or CJK (caseless), so this is
faithful on the relevant domain, and it coincides with SQLite's
ASCII-only case folding used by `LIKE`.  Timestamps are modelled as `Nat`
(the code stores ISO-8601 UTC strings, whose lexicographic order agrees
with time order).  Relevance scores are modelled in `ℚ`.
-/

namespace DialogueRecorder

/-- Character-wise lower-casing, modelling JS `toLowerCase` / SQLite ASCII
folding on the ASCII+CJK strings this program manipulates. -/
def lowerStr (s : List Char) : List Char := s.map Char.toLower

/-- JS whitespace class (the ASCII fragment, which is all that the
program's inputs use): space, tab, newline, carriage return, vertical tab,
form feed. -/
def isJsWs (c : Char) : Bool :=
  c = ' ' || c = '\t' || c = '\n' || c = '\r' || c = Char.ofNat 11 || c = Char.ofNat 12

/-- JS `String.prototype.trim`: strip leading and trailing whitespace. -/
def trimStr (s : List Char) : List Char :=
  ((s.dropWhile isJsWs).reverse.dropWhile isJsWs).reverse

/-- First index at which `pat` occurs in `s` (JS `indexOf`, result `none`
for JS `-1`). -/
def firstMatchPos (pat : List Char) : List Char → Option Nat
  | [] => if pat.isEmpty then some 0 else none
  | c :: rest =>
    if pat.isPrefixOf (c :: rest) then some 0
    else (firstMatchPos pat rest).map (· + 1)

/-- JS `indexOf(pat, start)`: first occurrence of `pat` in `s` at an index
`≥ start`. -/
def indexOfFrom (s pat : List Char) (start : Nat) : Option Nat :=
  (firstMatchPos pat (s.drop start)).map (· + start)

/-- JS `String.prototype.includes`: `pat` occurs somewhere in `hay`. -/
def containsSub (hay pat : List Char) : Bool :=
  (firstMatchPos pat hay).isSome

/-- All indices at which `pat` occurs in `s` (occurrences at every
position, including overlapping ones — this is what the successive
`indexOf(pat, index + 1)` loop of the source enumerates). -/
def matchPositions (pat : List Char) : List Char → List Nat
  | [] => []
  | c :: rest =>
    (if pat.isPrefixOf (c :: rest) then [0] else [])
      ++ (matchPositions pat rest).map (· + 1)

/-! ## Data model (src/src/models/DialogueRecord.ts) -/

/-- The `speaker` union type of `DialogueRecord`. -/
inductive Speaker where
  | USER
  | BUILDER
  | CHAT
deriving DecidableEq, Repr

/-- The `recordType` union type of `DialogueRecord`. -/
inductive RecordType where
  | DIALOGUE
  | FILE_MODIFICATION
  | UNDO
  | REDO
deriving DecidableEq, Repr

/-- The `modificationType` union type of `DialogueRecord`. -/
inductive ModificationType where
  | CREATE
  | MODIFY
  | DELETE
  | RENAME
deriving DecidableEq, Repr

/-- `DialogueRecord` (src/src/models/DialogueRecord.ts). Optional fields
are `Option`s; `timestamp` is a `Nat` standing for the ISO-8601 instant. -/
structure DialogueRecord where
  id : List Char
  sessionId : List Char
  timestamp : Nat
  speaker : Speaker
  content : List Char
  recordType : RecordType
  filePath : Option (List Char) := none
  modificationType : Option ModificationType := none
  oldContent : Option (List Char) := none
  newContent : Option (List Char) := none
  operationDetails : Option (List Char) := none
deriving DecidableEq, Repr

/-! ## Line classifier (src/src/services/DialogueListenerService.ts) -/

/-- The `terminalKeywords` table of
`DialogueListenerService.isTerminalOrSystemMessage` (lines 121-127). -/
def terminalKeywords : List (List Char) :=
  [("终端").data, ("terminal").data, ("命令").data, ("command").data,
   ("npm").data, ("git").data, ("cd").data, ("ls").data, ("dir").data,
   ("编译").data, ("compile").data, ("构建").data, ("build").data,
   ("运行").data, ("run").data, ("执行").data, ("execute").data,
   ("错误").data, ("error").data, ("警告").data, ("warning").data,
   ("信息").data, ("info").data, ("调试").data, ("debug").data,
   ("断点").data, ("breakpoint").data, ("工具调用").data, ("tool_call").data,
   ("Tool:").data, ("工具:").data,
   ("创建").data, ("create").data, ("关闭").data, ("close").data,
   ("开始").data, ("start").data, ("结束").data, ("end").data]

/-- `DialogueListenerService.isTerminalOrSystemMessage` (lines 119-132):
the line is noise when its lower-casing contains any keyword's
lower-casing as a substring. -/
def isTerminalOrSystemMessage (line : List Char) : Bool :=
  terminalKeywords.any (fun kw => containsSub (lowerStr line) (lowerStr kw))

/-- The `systemPatterns` check of `isRealChatContent` (lines 144-152):
pattern 1, `/^\s*\d+\s*$/` — optional whitespace, digits, optional
whitespace, anchored. -/
def isPureNumberLine (content : List Char) : Bool :=
  let t := content.dropWhile isJsWs
  let d := t.takeWhile Char.isDigit
  !d.isEmpty && (t.dropWhile Char.isDigit).all isJsWs

/-- `systemPatterns` pattern 2, `/^[\s\-\*]+$/` — only whitespace, `-`
and `*`, at least one character. -/
def isSymbolOnlyLine (content : List Char) : Bool :=
  !content.isEmpty && content.all (fun c => isJsWs c || c = '-' || c = '*')

/-- `systemPatterns` pattern 3, `/^(OK|成功|失败|错误|完成|开始|结束)$/i` —
anchored, case-insensitive alternation of trivial status words. -/
def isStatusWordLine (content : List Char) : Bool :=
  [("ok").data, ("成功").data, ("失败").data, ("错误").data,
   ("完成").data, ("开始").data, ("结束").data].any
    (fun w => lowerStr content = w)

/-- `DialogueListenerService.isRealChatContent` (lines 134-155): the
content validity gate — length in `[10, 5000]` and none of the
`systemPatterns` matches. -/
def isRealChatContent (content : List Char) : Bool :=
  if content.length < 10 || content.length > 5000 then false
  else
    !(isPureNumberLine content || isSymbolOnlyLine content
      || isStatusWordLine content
      || ("执行命令:").data.isPrefixOf content
      || ("工具调用:").data.isPrefixOf content
      || ("终端已").data.isPrefixOf content
      || ("调试会话").data.isPrefixOf content)

/-- The `dialogueIndicators` table of
`DialogueListenerService.isPureDialogueContent` (lines 159-164). -/
def dialogueIndicators : List (List Char) :=
  [("你好").data, ("请问").data, ("谢谢").data, ("帮助").data,
   ("问题").data, ("回答").data, ("解释").data, ("说明").data,
   ("如何").data, ("什么").data, ("为什么").data, ("怎样").data,
   ("可以").data, ("需要").data, ("想要").data, ("希望").data,
   ("我觉得").data, ("我认为").data, ("建议").data, ("推荐").data,
   ("示例").data, ("代码").data, ("实现").data,
   ("功能").data, ("特性").data, ("需求").data, ("要求").data,
   ("任务").data, ("目标").data, ("目的").data]

/-- `DialogueListenerService.isPureDialogueContent` (lines 157-169):
contains a dialogue-indicating word (case-sensitive `includes`) and is
longer than 20 characters. -/
def isPureDialogueContent (line : List Char) : Bool :=
  dialogueIndicators.any (fun ind => containsSub line ind) && line.length > 20

/-- `DialogueListenerService.determineSpeakerFromContext` (lines 171-185):
role inferred from content shape — question indicators, then
implementation vocabulary, then length over 100, else none. -/
def determineSpeakerFromContext (line : List Char) : Option Speaker :=
  if line.contains '?' || line.contains '？'
      || containsSub line ("请问").data || containsSub line ("如何").data
      || containsSub line ("什么").data || containsSub line ("为什么").data then
    some .USER
  else if containsSub line ("代码").data || containsSub line ("实现").data
      || containsSub line ("功能").data || containsSub line ("工具").data then
    some .BUILDER
  else if line.length > 100 then
    some .CHAT
  else
    none

/-- `DialogueListenerService.extractContent` (lines 187-195): for the
first marker found in the line, the trimmed text after it. -/
def extractContent (line : List Char) : List (List Char) → Option (List Char)
  | [] => none
  | m :: rest =>
    match firstMatchPos m line with
    | some idx => some (trimStr (line.drop (idx + m.length)))
    | none => extractContent line rest

/-- The regex `/\[Builder\]|^Builder:/` of line 89. -/
def matchesBuilderMarker (line : List Char) : Bool :=
  containsSub line ("[Builder]").data || ("Builder:").data.isPrefixOf line

/-- The regex `/\[Chat\]|^Chat:|^Assistant:/` of line 96. -/
def matchesChatMarker (line : List Char) : Bool :=
  containsSub line ("[Chat]").data || ("Chat:").data.isPrefixOf line
    || ("Assistant:").data.isPrefixOf line

/-- The regex `/\[User\]|^User:|^USER:/` of line 103. -/
def matchesUserMarker (line : List Char) : Bool :=
  containsSub line ("[User]").data || ("User:").data.isPrefixOf line
    || ("USER:").data.isPrefixOf line

/-- `DialogueListenerService.analyzeOutputLine` (lines 82-117), returning
the `(speaker, content)` pair handed to `recordDialogue`, or `none` when
the line is dropped.  The JS truthiness test `content &&` becomes
`!content.isEmpty`. -/
def analyzeOutputLine (line : List Char) : Option (Speaker × List Char) :=
  if isTerminalOrSystemMessage line then none
  else if matchesBuilderMarker line then
    match extractContent line [("[Builder]").data, ("Builder:").data] with
    | some content =>
      if !content.isEmpty && isRealChatContent content then
        some (.BUILDER, content)
      else none
    | none => none
  else if matchesChatMarker line then
    match extractContent line [("[Chat]").data, ("Chat:").data, ("Assistant:").data] with
    | some content =>
      if !content.isEmpty && isRealChatContent content then
        some (.CHAT, content)
      else none
    | none => none
  else if matchesUserMarker line then
    match extractContent line [("[User]").data, ("User:").data, ("USER:").data] with
    | some content =>
      if !content.isEmpty && isRealChatContent content then
        some (.USER, content)
      else none
    | none => none
  else if isPureDialogueContent line then
    match determineSpeakerFromContext line with
    | some speaker =>
      if isRealChatContent line then some (speaker, line) else none
    | none => none
  else none

/-- `DialogueListenerService.setupTerminalDataListener` (lines 216-228):
on terminal creation the listener immediately records a BUILDER record
with the fixed template content, bypassing `analyzeOutputLine` and its
gates. -/
def setupTerminalDataListenerRecord (name : List Char) : Speaker × List Char :=
  (.BUILDER, ("终端已创建: ").data ++ name)

/-! ## Search and relevance (src/src/services/DatabaseService.ts) -/

/-- `SearchCriteria` (src/src/models/DialogueRecord.ts). -/
structure SearchCriteria where
  keyword : Option (List Char) := none
  startTime : Option Nat := none
  endTime : Option Nat := none
  speaker : Option Speaker := none
  recordType : Option RecordType := none
  fileExtension : Option (List Char) := none
deriving DecidableEq, Repr

/-- `SearchResult` (src/src/models/DialogueRecord.ts): a record, a
relevance score, and highlighted excerpts. -/
structure SearchResult where
  record : DialogueRecord
  relevance : ℚ
  highlights : List (List Char)
deriving DecidableEq, Repr

/-- A single JS-regex pattern character matches an input character:
`.` is the any-character wildcard (not matching a newline), every other
character matches literally.  This models the fragment of JS `RegExp`
that `calculateRelevance` can build from keywords made of literal
characters and dots; patterns using other metacharacters are outside the
model's domain. -/
def jsPatCharMatches (p c : Char) : Bool :=
  if p = '.' then c ≠ '\n' else p = c

/-- The JS-regex pattern `pat` matches a prefix of `s`. -/
def jsPatAccepts (pat : List Char) (s : List Char) : Bool :=
  match pat, s with
  | [], _ => true
  | _ :: _, [] => false
  | p :: ps, c :: cs => jsPatCharMatches p c && jsPatAccepts ps cs

/-- Left-to-right non-overlapping scan: at each position, when `skip` is
positive this position is still covered by the previous match and is
passed over; otherwise a match of `pat` starting here counts one and the
next `pat.length - 1` positions are skipped.  Parameterized by the
prefix-acceptance test so that the JS-regex count and the literal count
share one scanner. -/
def scanCount (accepts : List Char → List Char → Bool) (pat : List Char) :
    List Char → Nat → Nat
  | [], _ => 0
  | _ :: rest, skip + 1 => scanCount accepts pat rest skip
  | c :: rest, 0 =>
    if accepts pat (c :: rest) then
      1 + scanCount accepts pat rest (pat.length - 1)
    else
      scanCount accepts pat rest 0

/-- `content.match(new RegExp(pat, 'g')).length`: the number of
non-overlapping leftmost matches of the pattern. -/
def jsRegexCount (pat s : List Char) : Nat :=
  scanCount jsPatAccepts pat s 0

/-- The number of non-overlapping leftmost literal occurrences of `pat`
in `s` — the claim's reading of "occurrenceCount". -/
def litCount (pat s : List Char) : Nat :=
  scanCount (fun p t => p.isPrefixOf t) pat s 0

/-- The JS regex metacharacters: a keyword avoiding all of these is
interpreted by `new RegExp(keyword)` as a literal string. -/
def regexMetachars : List Char :=
  ['.', '*', '+', '?', '(', ')', '[', ']', '\\', '^', '$', '|',
   Char.ofNat 123, Char.ofNat 125]

/-- `SearchService.calculateRelevance` (DatabaseService.ts lines 440-456):
`0.5` without keyword; otherwise, when the lower-cased keyword occurs in
the lower-cased content, `min(1, 0.3 + keywordCount*0.2 +
positionScore*0.5)` where `keywordCount` counts matches of the keyword
built into a regex (`new RegExp(keywordLower, 'g')`), `position` is the
literal `indexOf`, and `positionScore = max(0, 1 - position/len)`;
`0` when the keyword does not occur. -/
def calculateRelevance (content : List Char) (keyword : List Char) : ℚ :=
  if keyword.isEmpty then 1/2
  else
    let contentL := lowerStr content
    let keywordL := lowerStr keyword
    if containsSub contentL keywordL then
      let keywordCount := jsRegexCount keywordL contentL
      let position := (firstMatchPos keywordL contentL).getD 0
      let positionScore := max 0 (1 - (position : ℚ) / (contentL.length : ℚ))
      min 1 (3/10 + (keywordCount : ℚ) * (2/10) + positionScore * (5/10))
    else 0

/-- A found index of a non-empty pattern lies strictly inside the string. -/
theorem firstMatchPos_lt_length {pat s : List Char} {j : Nat}
    (hp : ¬pat.isEmpty) (h : firstMatchPos pat s = some j) : j < s.length := by
  induction s generalizing j with
  | nil => simp [firstMatchPos, hp] at h
  | cons c rest ih =>
    unfold firstMatchPos at h
    by_cases hpre : pat.isPrefixOf (c :: rest)
    · simp [hpre] at h
      simp [← h]
    · simp [hpre] at h
      obtain ⟨j', hj', rfl⟩ := h
      have := ih hj'
      simp only [List.length_cons]
      omega

/-- The `[max(0, index-20), min(len, index+klen+20))` excerpt of
`content` emitted by `extractHighlights` for a match at `index`
(`Math.max` is the truncated `Nat` subtraction; JS `substring` is
drop-then-take). -/
def excerptAt (content : List Char) (index klen : Nat) : List Char :=
  let s := index - 20
  let e := min content.length (index + klen + 20)
  (content.drop s).take (e - s)

/-- The `while (index !== -1)` loop of `SearchService.extractHighlights`
(DatabaseService.ts lines 465-474): successive
`indexOf(keywordLower, index + 1)` calls visit exactly the positions of
`contentL` where `keywordL` matches, in increasing order, advancing one
character past each found index; embedded as a scan over the suffixes of
`contentL` that emits the excerpt of the original `content` at every
match position. -/
def highlightScan (content keywordL : List Char) :
    List Char → Nat → List (List Char)
  | [], _ => []
  | c :: rest, pos =>
    if keywordL.isPrefixOf (c :: rest) then
      excerptAt content pos keywordL.length
        :: highlightScan content keywordL rest (pos + 1)
    else
      highlightScan content keywordL rest (pos + 1)

/-- `SearchService.extractHighlights` (DatabaseService.ts lines 458-477):
empty without keyword, else one excerpt per occurrence of the lower-cased
keyword in the lower-cased content.  The excerpt bound uses
`keyword.length`, which equals `(lowerStr keyword).length` since
lower-casing is character-wise. -/
def extractHighlights (content : List Char) (keyword : List Char) :
    List (List Char) :=
  if keyword.isEmpty then []
  else highlightScan content (lowerStr keyword) (lowerStr content) 0

/-- Stable insertion of `x` into a list sorted by `le` (`le a b`: `a`
may come no later than `b`): `x` is placed before the first element it
must precede strictly, so equal elements keep their original order. -/
def insertSorted (le : α → α → Bool) (x : α) : List α → List α
  | [] => [x]
  | y :: ys => if le x y then x :: y :: ys else y :: insertSorted le x ys

/-- Stable sort by `le`, modelling the stable sorts of the program
(JS `Array.prototype.sort` is stable, and SQL `ORDER BY`): elements are
inserted from first to last, so an earlier element precedes a later
equal one. -/
def insertionSort (le : α → α → Bool) : List α → List α
  | [] => []
  | x :: xs => insertSorted le x (insertionSort le xs)

/-- Membership is preserved by stable insertion. -/
theorem mem_insertSorted {le : α → α → Bool} {x a : α} {l : List α} :
    a ∈ insertSorted le x l ↔ a = x ∨ a ∈ l := by
  induction l with
  | nil => simp [insertSorted]
  | cons y ys ih =>
    by_cases h : le x y
    · simp [insertSorted, h]
    · simp [insertSorted, h, ih]
      tauto

/-- Membership is preserved by the stable sort. -/
theorem mem_insertionSort {le : α → α → Bool} {a : α} {l : List α} :
    a ∈ insertionSort le l ↔ a ∈ l := by
  induction l with
  | nil => simp [insertionSort]
  | cons x xs ih => simp [insertionSort, mem_insertSorted, ih]

/-- SQLite `LIKE` full-pattern match (ASCII case folding): `%` matches
any sequence (tried by dropping every possible number of characters),
`_` any single character, anything else one character up to case. -/
def likeMatch : List Char → List Char → Bool
  | [], s => s.isEmpty
  | p :: ps, s =>
    if p = '%' then
      (List.range (s.length + 1)).any (fun k => likeMatch ps (s.drop k))
    else
      match s with
      | [] => false
      | c :: cs =>
        (if p = '_' then true else p.toLower = c.toLower) && likeMatch ps cs

/-- `DatabaseService.searchRecords` (DatabaseService.ts lines 166-211):
`SELECT * WHERE content LIKE '%keyword%' [AND timestamp >= start]
[AND timestamp <= end] ORDER BY timestamp DESC`. -/
def searchRecords (store : List DialogueRecord) (keyword : List Char)
    (startTime endTime : Option Nat) : List DialogueRecord :=
  let rows := store.filter (fun r =>
    likeMatch ('%' :: keyword ++ ['%']) r.content
    && (match startTime with | none => true | some t => t ≤ r.timestamp)
    && (match endTime with | none => true | some t => r.timestamp ≤ t))
  insertionSort (fun a b => b.timestamp ≤ a.timestamp) rows

/-- The in-memory conjunctive filter of `SearchService.search`
(DatabaseService.ts lines 411-423).  JS truthiness: an empty
`fileExtension` or an empty `filePath` short-circuits the extension
check, so such records pass. -/
def matchesCriteria (c : SearchCriteria) (r : DialogueRecord) : Bool :=
  (match c.speaker with | none => true | some s => r.speaker = s)
  && (match c.recordType with | none => true | some k => r.recordType = k)
  && (match c.fileExtension, r.filePath with
      | some ext, some p =>
        ext.isEmpty || p.isEmpty || ext.isSuffixOf p
      | _, _ => true)

/-- The final `searchResults.sort((a, b) => b.relevance - a.relevance)`
(DatabaseService.ts line 433): a stable descending sort by relevance. -/
def sortByRelevance (l : List SearchResult) : List SearchResult :=
  insertionSort (fun a b => b.relevance ≤ a.relevance) l

/-- `SearchService.search` (DatabaseService.ts lines 401-438): narrow by
keyword and time bounds through the store, apply the in-memory filters,
build results with relevance and highlights, and sort by relevance
descending.  A missing keyword becomes `''` (`criteria.keyword || ''`). -/
def search (store : List DialogueRecord) (c : SearchCriteria) :
    List SearchResult :=
  let kw := c.keyword.getD []
  let records := searchRecords store kw c.startTime c.endTime
  let filtered := records.filter (matchesCriteria c)
  let results := filtered.map (fun r =>
    { record := r
      relevance := calculateRelevance r.content kw
      highlights := extractHighlights r.content kw })
  sortByRelevance results

/-! ## Persistence path (saveRecord / recordDialogue / getSessionDetail) -/

/-- `DatabaseService.saveRecord` (DatabaseService.ts lines 89-120): fails
when the database handle is still null after initialization
(`Database not initialized`), or when the `INSERT` violates the
`id TEXT PRIMARY KEY` constraint; otherwise appends the row. -/
def saveRecord (db : Option (List DialogueRecord)) (r : DialogueRecord) :
    Except (List Char) (List DialogueRecord) :=
  match db with
  | none => .error ("Database not initialized").data
  | some store =>
    if store.any (fun x => x.id = r.id) then
      .error ("SQLITE_CONSTRAINT: UNIQUE constraint failed").data
    else
      .ok (store ++ [r])

/-- The record built by `DialogueListenerService.recordDialogue`
(DialogueListenerService.ts lines 285-292); the generated id, the
listener's session id and the current time are threaded in as
arguments. -/
def mkDialogueRecord (rid sessionId : List Char) (ts : Nat)
    (speaker : Speaker) (content : List Char) : DialogueRecord :=
  { id := rid
    sessionId := sessionId
    timestamp := ts
    speaker := speaker
    content := content
    recordType := .DIALOGUE }

/-- `DialogueListenerService.recordDialogue` (lines 284-300): one
`saveRecord` attempt inside try/catch — on failure the error is logged
and swallowed, the call completes normally and the store is left
unchanged; no retry. -/
def recordDialogue (db : Option (List DialogueRecord))
    (rid sessionId : List Char) (ts : Nat) (speaker : Speaker)
    (content : List Char) : Option (List DialogueRecord) :=
  match saveRecord db (mkDialogueRecord rid sessionId ts speaker content) with
  | .ok store => some store
  | .error _ => db

/-- One full classify-and-record step for a text line
(`analyzeOutputLine` plus its `recordDialogue` side effect): the new
database state — unchanged when the line is dropped or the save fails. -/
def processLine (db : Option (List DialogueRecord)) (rid sessionId : List Char)
    (ts : Nat) (line : List Char) : Option (List DialogueRecord) :=
  match analyzeOutputLine line with
  | none => db
  | some (speaker, content) => recordDialogue db rid sessionId ts speaker content

/-- The failure modes of `getSessionDetail`, as seen by its caller: the
promise rejects.  `sessionNotFound` models the `TypeError` thrown on
line 341 when the aggregate query returned no row for the session (the
`catch` on line 360 turns it into a rejection). -/
inductive DbError where
  | sessionNotFound
deriving DecidableEq, Repr

/-- `SessionDetail` (src/src/models/DialogueRecord.ts). -/
structure SessionDetail where
  sessionId : List Char
  sessionName : List Char
  records : List DialogueRecord
  totalRecords : Nat
  duration : List Char
  speakers : List Speaker
  startTime : Nat
  endTime : Nat
deriving DecidableEq, Repr

/-- `DatabaseService.formatDuration` (DatabaseService.ts lines 367-379). -/
def formatDuration (ms : Nat) : List Char :=
  let seconds := ms / 1000
  let minutes := seconds / 60
  let hours := minutes / 60
  if hours > 0 then
    (Nat.repr hours).data ++ ("小时").data
      ++ (Nat.repr (minutes % 60)).data ++ ("分钟").data
  else if minutes > 0 then
    (Nat.repr minutes).data ++ ("分钟").data
      ++ (Nat.repr (seconds % 60)).data ++ ("秒").data
  else
    (Nat.repr seconds).data ++ ("秒").data

/-- `DatabaseService.getSessionDetail` (DatabaseService.ts lines 299-365):
the aggregate row for the session (count, min/max timestamp, distinct
speakers) plus the session's records ordered by timestamp ascending.
When the session has no records the aggregate query yields no row and
the later field access throws, rejecting the promise — modelled as
`Except.error .sessionNotFound`. -/
def getSessionDetail (store : List DialogueRecord) (sessionId : List Char) :
    Except DbError SessionDetail :=
  match store.filter (fun r => r.sessionId = sessionId) with
  | [] => .error .sessionNotFound
  | r0 :: rest =>
    let rows := r0 :: rest
    let startTime := rest.foldl (fun acc x => min acc x.timestamp) r0.timestamp
    let endTime := rest.foldl (fun acc x => max acc x.timestamp) r0.timestamp
    let records := insertionSort (fun a b => a.timestamp ≤ b.timestamp) rows
    .ok
      { sessionId := sessionId
        sessionName := ("会话 ").data ++ sessionId.take 8 ++ ("...").data
        records := records
        totalRecords := rows.length
        duration := formatDuration (endTime - startTime)
        speakers := (rows.map (fun r => r.speaker)).dedup
        startTime := startTime
        endTime := endTime }

/-! ## Helper lemmas -/

/-- The content gate only accepts text of length in `[10, 5000]`. -/
theorem isRealChatContent_length {c : List Char}
    (h : isRealChatContent c = true) :
    10 ≤ c.length ∧ c.length ≤ 5000 := by
  unfold isRealChatContent at h
  split at h
  · exact absurd h (by simp)
  · next hcond =>
    rw [Bool.or_eq_true, not_or] at hcond
    constructor
    · have := hcond.1
      simp only [decide_eq_true_eq] at this
      omega
    · have := hcond.2
      simp only [decide_eq_true_eq] at this
      omega

/-! ## Claims -/

/-- **C2.** For every raw text line that contains any keyword of the
fixed noise-keyword set (case-insensitively), `analyzeOutputLine`
produces no record, regardless of the rest of the line's content —
including lines that also carry an explicit role marker or dialogue
vocabulary: the noise check runs first and returns unconditionally. -/
theorem claim2_noise_rejected (line kw : List Char)
    (hmem : kw ∈ terminalKeywords)
    (hsub : containsSub (lowerStr line) (lowerStr kw) = true) :
    analyzeOutputLine line = none := by
  have hnoise : isTerminalOrSystemMessage line = true := by
    unfold isTerminalOrSystemMessage
    exact List.any_eq_true.mpr ⟨kw, hmem, hsub⟩
  unfold analyzeOutputLine
  simp [hnoise]

/-- Witness for C2: the line `"npm install 执行完成"` contains the noise
keyword `npm` and is dropped. -/
theorem claim2_noise_rejected_witness :
    analyzeOutputLine ("npm install 执行完成").data = none :=
  claim2_noise_rejected ("npm install 执行完成").data ("npm").data
    (by decide) (by decide)

/-- **C3 (counterexample).** Classifying `"Builder: 我来帮您创建项目"`
does **not** produce a `BUILDER` record with text `"我来帮您创建项目"`:
the lower-cased line contains the noise keywords `build` (inside
`Builder`) and `创建`, so noise rejection discards it before marker
matching — and the candidate content has only 8 characters, short of the
10-character gate in any case. -/
theorem claim3_builder_line_counterexample :
    analyzeOutputLine ("Builder: 我来帮您创建项目").data
      ≠ some (Speaker.BUILDER, ("我来帮您创建项目").data) := by
  decide

/-- **C3 (amended).** Classifying the input line
`"Builder: 我来帮您创建项目"` produces no record at all. -/
theorem claim3_builder_line_no_record :
    analyzeOutputLine ("Builder: 我来帮您创建项目").data = none := by
  decide

/-- **C4 (amended).** Every record the line classifier produces from a
text line has content length between 10 and 5000 inclusive: every
accepting path of `analyzeOutputLine` is guarded by
`isRealChatContent`.  (Lifecycle-event records bypass this gate — see
the counterexample.) -/
theorem claim4_classifier_length_gate (line : List Char) (sp : Speaker)
    (content : List Char)
    (h : analyzeOutputLine line = some (sp, content)) :
    10 ≤ content.length ∧ content.length ≤ 5000 := by
  unfold analyzeOutputLine at h
  repeat' split at h
  all_goals
    first
      | exact Option.noConfusion h
      | (rename_i hg
         simp only [Option.some.injEq, Prod.mk.injEq] at h
         obtain ⟨-, rfl⟩ := h
         first
           | exact isRealChatContent_length (Bool.and_elim_right hg)
           | exact isRealChatContent_length hg)

/-- Witness for C4: the line `"Chat: 这是一段足够长的对话内容哦"` is
classified as a `CHAT` record whose 13-character content obeys the
gate. -/
theorem claim4_classifier_length_gate_witness :
    analyzeOutputLine ("Chat: 这是一段足够长的对话内容哦").data
        = some (Speaker.CHAT, ("这是一段足够长的对话内容哦").data)
      ∧ 10 ≤ ("这是一段足够长的对话内容哦").data.length
      ∧ ("这是一段足够长的对话内容哦").data.length ≤ 5000 :=
  ⟨by decide,
   claim4_classifier_length_gate ("Chat: 这是一段足够长的对话内容哦").data
     Speaker.CHAT ("这是一段足够长的对话内容哦").data (by decide)⟩

/-- **C4 (counterexample to the claim as stated).** Records produced
from lifecycle events bypass the content gate: opening a terminal named
`"a"` immediately records a `BUILDER` record whose content
`"终端已创建: a"` has only 8 characters, and `recordDialogue` appends it
to the store. -/
theorem claim4_lifecycle_counterexample :
    ((setupTerminalDataListenerRecord ['a']).2).length < 10
      ∧ recordDialogue (some []) ("r1").data ("s1").data 0
          (setupTerminalDataListenerRecord ['a']).1
          (setupTerminalDataListenerRecord ['a']).2
        = some [mkDialogueRecord ("r1").data ("s1").data 0
            Speaker.BUILDER (("终端已创建: ").data ++ ['a'])] := by
  constructor
  · decide
  · rfl

/-- **C5.** For every line reaching implicit-content inference,
`determineSpeakerFromContext` follows exactly the precedence
question-indicators → implementation vocabulary → length over 100 →
discard: a question indicator forces `USER` regardless of anything else;
failing that, implementation vocabulary forces `BUILDER`; failing both, a
length over 100 gives `CHAT`; otherwise no role is inferred. -/
theorem claim5_role_precedence (line : List Char) :
    ((line.contains '?' || line.contains '？'
        || containsSub line ("请问").data || containsSub line ("如何").data
        || containsSub line ("什么").data
        || containsSub line ("为什么").data) = true →
      determineSpeakerFromContext line = some Speaker.USER)
    ∧ ((line.contains '?' || line.contains '？'
        || containsSub line ("请问").data || containsSub line ("如何").data
        || containsSub line ("什么").data
        || containsSub line ("为什么").data) = false →
      (containsSub line ("代码").data || containsSub line ("实现").data
        || containsSub line ("功能").data
        || containsSub line ("工具").data) = true →
      determineSpeakerFromContext line = some Speaker.BUILDER)
    ∧ ((line.contains '?' || line.contains '？'
        || containsSub line ("请问").data || containsSub line ("如何").data
        || containsSub line ("什么").data
        || containsSub line ("为什么").data) = false →
      (containsSub line ("代码").data || containsSub line ("实现").data
        || containsSub line ("功能").data
        || containsSub line ("工具").data) = false →
      100 < line.length →
      determineSpeakerFromContext line = some Speaker.CHAT)
    ∧ ((line.contains '?' || line.contains '？'
        || containsSub line ("请问").data || containsSub line ("如何").data
        || containsSub line ("什么").data
        || containsSub line ("为什么").data) = false →
      (containsSub line ("代码").data || containsSub line ("实现").data
        || containsSub line ("功能").data
        || containsSub line ("工具").data) = false →
      line.length ≤ 100 →
      determineSpeakerFromContext line = none) := by
  refine ⟨fun hq => ?_, fun hq hi => ?_, fun hq hi hl => ?_, fun hq hi hl => ?_⟩
  · unfold determineSpeakerFromContext
    simp only [hq, if_true]
  · unfold determineSpeakerFromContext
    simp only [hq, hi, if_true, Bool.false_eq_true, if_false]
  · unfold determineSpeakerFromContext
    simp only [hq, hi, Bool.false_eq_true, if_false, if_pos hl]
  · unfold determineSpeakerFromContext
    simp only [hq, hi, Bool.false_eq_true, if_false]
    rw [if_neg (by omega)]

/-- Witness for C5: a 107-character line containing both a question mark
and implementation vocabulary (`代码`) is classified `USER` — never
`AGENT_CHAT`, although it is longer than 100 characters. -/
theorem claim5_role_precedence_witness :
    determineSpeakerFromContext
        ('?' :: ("代码").data ++ List.replicate 104 '长') = some Speaker.USER
      ∧ 100 < ('?' :: ("代码").data ++ List.replicate 104 '长').length :=
  ⟨(claim5_role_precedence
      ('?' :: ("代码").data ++ List.replicate 104 '长')).1 (by decide),
   by decide⟩

/-- Any result returned by `search` is built from a store record that
passed the store-level narrowing and the in-memory filters, with its
relevance and highlights computed from the effective keyword. -/
theorem mem_search_elim {store : List DialogueRecord} {c : SearchCriteria}
    {res : SearchResult} (h : res ∈ search store c) :
    ∃ r, r ∈ store ∧ matchesCriteria c r = true
      ∧ res = { record := r
                relevance := calculateRelevance r.content (c.keyword.getD [])
                highlights := extractHighlights r.content (c.keyword.getD []) } := by
  simp only [search, sortByRelevance, mem_insertionSort, List.mem_map] at h
  obtain ⟨r, hr, rfl⟩ := h
  rw [List.mem_filter] at hr
  obtain ⟨hr1, hr2⟩ := hr
  simp only [searchRecords, mem_insertionSort] at hr1
  rw [List.mem_filter] at hr1
  exact ⟨r, hr1.1, hr2, rfl⟩

/-- **C8.** For every session id with zero records in the store,
`getSessionDetail` fails (the aggregate query yields no row and the
rejected promise surfaces as an error); it never resolves with an
empty-but-valid `SessionDetail`. -/
theorem claim8_session_not_found (store : List DialogueRecord)
    (sid : List Char)
    (h : store.filter (fun r => r.sessionId = sid) = []) :
    getSessionDetail store sid = .error .sessionNotFound
      ∧ ∀ d, getSessionDetail store sid ≠ .ok d := by
  have he : getSessionDetail store sid = .error .sessionNotFound := by
    unfold getSessionDetail
    rw [h]
  exact ⟨he, fun d hd => by rw [he] at hd; exact Except.noConfusion hd⟩

/-- Witness for C8: a store holding one record of session `s1` has no
records for `unknown-id`, so the detail query fails. -/
theorem claim8_session_not_found_witness :
    getSessionDetail
        [mkDialogueRecord ("r1").data ("s1").data 5 Speaker.CHAT
          ("这是一段足够长的对话内容哦").data] ("unknown-id").data
      = .error .sessionNotFound :=
  (claim8_session_not_found _ ("unknown-id").data (by decide)).1

/-- **C9.** The classify-and-record operation never raises to its
caller: for every line, `processLine` completes with a definite store
state — unchanged when the line is dropped; and when a record is
produced, a failing `saveRecord` is swallowed (state unchanged, one
attempt, no retry) while a successful one appends exactly that record. -/
theorem claim9_record_never_raises (db : Option (List DialogueRecord))
    (rid sid : List Char) (ts : Nat) (line : List Char) :
    (analyzeOutputLine line = none → processLine db rid sid ts line = db)
    ∧ (∀ sp content,
        analyzeOutputLine line = some (sp, content) →
        (∀ e, saveRecord db (mkDialogueRecord rid sid ts sp content)
            = .error e →
          processLine db rid sid ts line = db)
        ∧ (∀ store,
            saveRecord db (mkDialogueRecord rid sid ts sp content)
              = .ok store →
            processLine db rid sid ts line = some store)) := by
  refine ⟨fun hn => ?_, fun sp content hs => ⟨fun e he => ?_, fun st ho => ?_⟩⟩
  · unfold processLine
    rw [hn]
  · unfold processLine
    rw [hs]
    show recordDialogue db rid sid ts sp content = db
    unfold recordDialogue
    rw [he]
  · unfold processLine
    rw [hs]
    show recordDialogue db rid sid ts sp content = some st
    unfold recordDialogue
    rw [ho]

/-- Witness for C9: with the store unavailable (`db = none`), the line
`"Chat: 这是一段足够长的对话内容哦"` classifies to a record, the save
attempt fails with `Database not initialized`, and `processLine` still
completes, leaving the state unchanged. -/
theorem claim9_record_never_raises_witness :
    saveRecord none
        (mkDialogueRecord ("r1").data ("s1").data 0 Speaker.CHAT
          ("这是一段足够长的对话内容哦").data)
      = .error ("Database not initialized").data
    ∧ processLine none ("r1").data ("s1").data 0
        ("Chat: 这是一段足够长的对话内容哦").data = none :=
  ⟨rfl,
   ((claim9_record_never_raises none ("r1").data ("s1").data 0
        ("Chat: 这是一段足够长的对话内容哦").data).2 Speaker.CHAT
      ("这是一段足够长的对话内容哦").data (by decide)).1
     ("Database not initialized").data rfl⟩

/-- **C10.** For every search whose keyword is empty or absent, every
returned result carries an empty highlights list. -/
theorem claim10_empty_keyword_no_highlights (store : List DialogueRecord)
    (c : SearchCriteria) (res : SearchResult)
    (hres : res ∈ search store c) (hkw : c.keyword.getD [] = []) :
    res.highlights = [] := by
  obtain ⟨r, -, -, rfl⟩ := mem_search_elim hres
  simp [extractHighlights, hkw]

/-- Witness for C10: a keyword-free criteria over a one-record store
returns that record with no highlights. -/
theorem claim10_empty_keyword_no_highlights_witness :
    ∃ res ∈ search
        [mkDialogueRecord ("r1").data ("s1").data 5 Speaker.CHAT
          ("这是一段足够长的对话内容哦").data]
        ({ } : SearchCriteria),
      res.highlights = [] := by
  have hmem :
      ({ record := mkDialogueRecord ("r1").data ("s1").data 5 Speaker.CHAT
            ("这是一段足够长的对话内容哦").data
         relevance := calculateRelevance
           ("这是一段足够长的对话内容哦").data
           (({ } : SearchCriteria).keyword.getD [])
         highlights := extractHighlights
           ("这是一段足够长的对话内容哦").data
           (({ } : SearchCriteria).keyword.getD []) } : SearchResult)
        ∈ search
          [mkDialogueRecord ("r1").data ("s1").data 5 Speaker.CHAT
            ("这是一段足够长的对话内容哦").data] ({ } : SearchCriteria) := by
    simp only [search, sortByRelevance, mem_insertionSort]
    exact List.mem_map_of_mem _ (by decide)
  exact ⟨_, hmem,
    claim10_empty_keyword_no_highlights _ _ _ hmem (by decide)⟩

/-- **C6 (amended).** When a search sets a non-empty `fileExtension`,
every returned record **that has a non-empty `filePath`** carries one
ending with that extension; records whose `filePath` is absent (or the
empty string) are not excluded by the filter, because the JS guard
`criteria.fileExtension && record.filePath && !record.filePath.endsWith(...)`
short-circuits on a missing path. -/
theorem claim6_extension_filter (store : List DialogueRecord)
    (c : SearchCriteria) (res : SearchResult) (ext fp : List Char)
    (hres : res ∈ search store c) (hext : c.fileExtension = some ext)
    (hne : ext ≠ []) (hfp : res.record.filePath = some fp)
    (hfpne : fp ≠ []) : ext.isSuffixOf fp = true := by
  obtain ⟨r, -, hcrit, rfl⟩ := mem_search_elim hres
  simp only at hfp
  unfold matchesCriteria at hcrit
  rw [hext, hfp] at hcrit
  simp only [Bool.and_eq_true, Bool.or_eq_true, List.isEmpty_iff] at hcrit
  rcases hcrit.2 with (h | h) | h
  · exact absurd h hne
  · exact absurd h hfpne
  · exact h

/-- Witness for C6: searching with extension `.ts` returns a record whose
path `src/a.ts` indeed ends with `.ts`. -/
theorem claim6_extension_filter_witness :
    ({ record :=
         { id := ("r2").data, sessionId := ("s1").data, timestamp := 7
           speaker := Speaker.BUILDER
           content := ("修改了这个源文件的内容").data
           recordType := RecordType.FILE_MODIFICATION
           filePath := some ("src/a.ts").data }
       relevance := calculateRelevance ("修改了这个源文件的内容").data
         (({ fileExtension := some (".ts").data } : SearchCriteria).keyword.getD [])
       highlights := extractHighlights ("修改了这个源文件的内容").data
         (({ fileExtension := some (".ts").data } : SearchCriteria).keyword.getD [])
       } : SearchResult)
      ∈ search
        [{ id := ("r2").data, sessionId := ("s1").data, timestamp := 7
           speaker := Speaker.BUILDER
           content := ("修改了这个源文件的内容").data
           recordType := RecordType.FILE_MODIFICATION
           filePath := some ("src/a.ts").data }]
        ({ fileExtension := some (".ts").data } : SearchCriteria)
    ∧ (".ts").data.isSuffixOf (("src/a.ts").data) = true := by
  have hmem :
      ({ record :=
           { id := ("r2").data, sessionId := ("s1").data, timestamp := 7
             speaker := Speaker.BUILDER
             content := ("修改了这个源文件的内容").data
             recordType := RecordType.FILE_MODIFICATION
             filePath := some ("src/a.ts").data }
         relevance := calculateRelevance ("修改了这个源文件的内容").data
           (({ fileExtension := some (".ts").data } : SearchCriteria).keyword.getD [])
         highlights := extractHighlights ("修改了这个源文件的内容").data
           (({ fileExtension := some (".ts").data } : SearchCriteria).keyword.getD [])
         } : SearchResult)
        ∈ search
          [{ id := ("r2").data, sessionId := ("s1").data, timestamp := 7
             speaker := Speaker.BUILDER
             content := ("修改了这个源文件的内容").data
             recordType := RecordType.FILE_MODIFICATION
             filePath := some ("src/a.ts").data }]
          ({ fileExtension := some (".ts").data } : SearchCriteria) := by
    simp only [search, sortByRelevance, mem_insertionSort]
    exact List.mem_map_of_mem _ (by decide)
  exact ⟨hmem,
    claim6_extension_filter _ _ _ (".ts").data ("src/a.ts").data hmem rfl
      (by decide) rfl (by decide)⟩

/-- **C6 (counterexample to the claim as stated).** With
`fileExtension = ".ts"` set, a record with **no** `filePath` at all is
still returned by `search`: the returned result list is exactly this one
record and its `filePath` is `none`, so not every returned record has a
path ending in the extension. -/
theorem claim6_missing_filepath_counterexample :
    (search
        [{ id := ("r3").data, sessionId := ("s1").data, timestamp := 9
           speaker := Speaker.CHAT
           content := ("这一条对话记录没有文件路径").data
           recordType := RecordType.DIALOGUE }]
        ({ fileExtension := some (".ts").data } : SearchCriteria)).map
      (fun res => res.record.filePath) = [none] := by
  simp only [search, sortByRelevance]
  norm_num [searchRecords, insertionSort, insertSorted, matchesCriteria,
    likeMatch, List.filter]

/-- The highlight loop emits exactly one excerpt per match position, in
order: scanning the suffix of the lowered content starting at `pos`
yields the excerpts at `pos + j` for each match offset `j` in that
suffix. -/
theorem highlightScan_eq_map (content keywordL : List Char) :
    ∀ (suffix : List Char) (pos : Nat),
      highlightScan content keywordL suffix pos
        = (matchPositions keywordL suffix).map
            (fun j => excerptAt content (pos + j) keywordL.length) := by
  intro suffix
  induction suffix with
  | nil => intro pos; simp [highlightScan, matchPositions]
  | cons c rest ih =>
    intro pos
    by_cases hpre : keywordL.isPrefixOf (c :: rest)
    · simp only [highlightScan, matchPositions, hpre, if_true, ih (pos + 1),
        List.map_append, List.map_map, List.map_cons, List.map_nil,
        List.singleton_append, Nat.add_zero]
      refine congrArg₂ _ rfl (List.map_congr_left fun j _ => ?_)
      simp only [Function.comp_apply]
      rw [Nat.add_comm j 1, ← Nat.add_assoc]
    · simp only [highlightScan, matchPositions, if_neg hpre, ih (pos + 1),
        List.map_map, List.nil_append]
      refine List.map_congr_left fun j _ => ?_
      simp only [Function.comp_apply]
      rw [Nat.add_comm j 1, ← Nat.add_assoc]

/-- **C7.** For every search with a non-empty keyword, each returned
result's highlight list consists, for each occurrence of the keyword in
the record's text (all occurrences, including overlapping ones — the
loop resumes at `index + 1`), of the excerpt window extending 20
characters before and 20 characters after the match, clipped to the
bounds of the text. -/
theorem claim7_highlights_all_occurrences (store : List DialogueRecord)
    (c : SearchCriteria) (res : SearchResult) (kw : List Char)
    (hres : res ∈ search store c) (hkw : c.keyword = some kw)
    (hne : kw ≠ []) :
    res.highlights
      = (matchPositions (lowerStr kw) (lowerStr res.record.content)).map
          (fun j => excerptAt res.record.content j kw.length) := by
  obtain ⟨r, -, -, rfl⟩ := mem_search_elim hres
  simp only [hkw, Option.getD_some]
  unfold extractHighlights
  rw [if_neg (by simpa [List.isEmpty_iff] using hne)]
  rw [highlightScan_eq_map]
  refine List.map_congr_left fun j _ => ?_
  simp [lowerStr]

/-- Witness for C7: searching `"abc xyz abc"` for `abc` returns both
occurrences (positions 0 and 8), each with its clipped ±20-character
excerpt. -/
theorem claim7_highlights_all_occurrences_witness :
    ({ record := mkDialogueRecord ("r4").data ("s1").data 3 Speaker.CHAT
         ("abc xyz abc").data
       relevance := calculateRelevance ("abc xyz abc").data
         (({ keyword := some ("abc").data } : SearchCriteria).keyword.getD [])
       highlights := extractHighlights ("abc xyz abc").data
         (({ keyword := some ("abc").data } : SearchCriteria).keyword.getD [])
       } : SearchResult)
      ∈ search
        [mkDialogueRecord ("r4").data ("s1").data 3 Speaker.CHAT
          ("abc xyz abc").data]
        ({ keyword := some ("abc").data } : SearchCriteria)
    ∧ extractHighlights ("abc xyz abc").data
        (({ keyword := some ("abc").data } : SearchCriteria).keyword.getD [])
      = (matchPositions (lowerStr ("abc").data)
            (lowerStr ("abc xyz abc").data)).map
          (fun j => excerptAt ("abc xyz abc").data j ("abc").data.length)
    ∧ matchPositions (lowerStr ("abc").data) (lowerStr ("abc xyz abc").data)
      = [0, 8] := by
  have hmem :
      ({ record := mkDialogueRecord ("r4").data ("s1").data 3 Speaker.CHAT
           ("abc xyz abc").data
         relevance := calculateRelevance ("abc xyz abc").data
           (({ keyword := some ("abc").data } : SearchCriteria).keyword.getD [])
         highlights := extractHighlights ("abc xyz abc").data
           (({ keyword := some ("abc").data } : SearchCriteria).keyword.getD [])
         } : SearchResult)
        ∈ search
          [mkDialogueRecord ("r4").data ("s1").data 3 Speaker.CHAT
            ("abc xyz abc").data]
          ({ keyword := some ("abc").data } : SearchCriteria) := by
    simp only [search, sortByRelevance, mem_insertionSort]
    exact List.mem_map_of_mem _ (by decide)
  exact ⟨hmem,
    claim7_highlights_all_occurrences _ _ _ ("abc").data hmem rfl (by decide),
    by decide⟩

/-- On patterns without the `.` wildcard, JS-regex prefix acceptance is
literal prefix matching. -/
theorem jsPatAccepts_eq_isPrefixOf {pat : List Char} (hp : '.' ∉ pat) :
    ∀ s, jsPatAccepts pat s = pat.isPrefixOf s := by
  induction pat with
  | nil => intro s; simp [jsPatAccepts, List.isPrefixOf]
  | cons p ps ih =>
    have hp1 : p ≠ '.' := fun h => hp (by rw [h]; exact List.mem_cons_self _ _)
    have hp2 : '.' ∉ ps := fun h => hp (List.mem_cons_of_mem _ h)
    intro s
    cases s with
    | nil => simp [jsPatAccepts, List.isPrefixOf]
    | cons c cs =>
      simp only [jsPatAccepts, List.isPrefixOf, jsPatCharMatches,
        if_neg hp1, ih hp2]
      by_cases hpc : p = c <;> simp [hpc]

/-- The non-overlapping scan does not depend on which acceptance test is
used, as long as the two tests agree on every suffix. -/
theorem scanCount_congr {f g : List Char → List Char → Bool}
    {pat : List Char} (hfg : ∀ t, f pat t = g pat t) :
    ∀ (s : List Char) (skip : Nat),
      scanCount f pat s skip = scanCount g pat s skip := by
  intro s
  induction s with
  | nil => intro skip; rfl
  | cons c rest ih =>
    intro skip
    cases skip with
    | zero => simp only [scanCount, hfg, ih]
    | succ k => simpa only [scanCount] using ih k

/-- For a keyword without the `.` wildcard, the regex-based match count
of `calculateRelevance` equals the literal non-overlapping occurrence
count. -/
theorem jsRegexCount_eq_litCount {pat : List Char} (hp : '.' ∉ pat)
    (s : List Char) : jsRegexCount pat s = litCount pat s :=
  scanCount_congr (fun t => jsPatAccepts_eq_isPrefixOf hp t) s 0

/-- **C1 (amended).** For every record returned by `search`: with an
empty (or absent) keyword its relevance is exactly `0.5`; and with a
non-empty keyword **containing no regex metacharacters** that occurs in
the record's text (case-insensitively), its relevance is exactly
`min(1, 0.3 + occurrenceCount*0.2 + positionScore*0.5)` with
`occurrenceCount` the number of non-overlapping case-insensitive literal
occurrences and `positionScore = max(0, 1 - firstIndex/len(text))`.  The
metacharacter restriction is forced: the code counts occurrences by
compiling the keyword into a regular expression (see the
counterexample). -/
theorem claim1_relevance_formula (store : List DialogueRecord)
    (c : SearchCriteria) (res : SearchResult)
    (hres : res ∈ search store c) :
    (c.keyword.getD [] = [] → res.relevance = 1/2)
    ∧ (∀ kw, c.keyword = some kw → kw ≠ [] →
        (∀ ch ∈ lowerStr kw, ch ∉ regexMetachars) →
        containsSub (lowerStr res.record.content) (lowerStr kw) = true →
        res.relevance
          = min 1 (3/10
              + (litCount (lowerStr kw) (lowerStr res.record.content) : ℚ)
                  * (2/10)
              + (max 0 (1 - ((firstMatchPos (lowerStr kw)
                      (lowerStr res.record.content)).getD 0 : ℚ)
                    / (res.record.content.length : ℚ))) * (5/10))) := by
  obtain ⟨r, -, -, rfl⟩ := mem_search_elim hres
  constructor
  · intro hkw
    simp only [hkw]
    simp [calculateRelevance]
  · intro kw hkw hne hmeta hsub
    simp only [hkw, Option.getD_some] at *
    have hdot : '.' ∉ lowerStr kw := fun h => hmeta '.' h (by decide)
    have hemp : kw.isEmpty = false := by
      simpa [List.isEmpty_iff] using hne
    simp only [calculateRelevance, hemp, Bool.false_eq_true, if_false,
      hsub, if_true, jsRegexCount_eq_litCount hdot]
    have hlen : (lowerStr r.content).length = r.content.length := by
      simp [lowerStr]
    rw [hlen]

/-- Witness for C1: searching `"zzzzzabczzzz"` for the metacharacter-free
keyword `abc` (one occurrence, first index 5, length 12) scores by the
claimed formula, which evaluates to `19/24`. -/
theorem claim1_relevance_formula_witness :
    ({ record := mkDialogueRecord ("r5").data ("s1").data 4 Speaker.CHAT
         ("zzzzzabczzzz").data
       relevance := calculateRelevance ("zzzzzabczzzz").data
         (({ keyword := some ("abc").data } : SearchCriteria).keyword.getD [])
       highlights := extractHighlights ("zzzzzabczzzz").data
         (({ keyword := some ("abc").data } : SearchCriteria).keyword.getD [])
       } : SearchResult)
      ∈ search
        [mkDialogueRecord ("r5").data ("s1").data 4 Speaker.CHAT
          ("zzzzzabczzzz").data]
        ({ keyword := some ("abc").data } : SearchCriteria)
    ∧ calculateRelevance ("zzzzzabczzzz").data
        (({ keyword := some ("abc").data } : SearchCriteria).keyword.getD [])
      = min 1 (3/10
          + (litCount (lowerStr ("abc").data)
              (lowerStr ("zzzzzabczzzz").data) : ℚ) * (2/10)
          + (max 0 (1 - ((firstMatchPos (lowerStr ("abc").data)
                  (lowerStr ("zzzzzabczzzz").data)).getD 0 : ℚ)
                / ((("zzzzzabczzzz").data.length : ℕ) : ℚ))) * (5/10))
    ∧ litCount (lowerStr ("abc").data) (lowerStr ("zzzzzabczzzz").data) = 1
    ∧ firstMatchPos (lowerStr ("abc").data) (lowerStr ("zzzzzabczzzz").data)
      = some 5 := by
  have hmem :
      ({ record := mkDialogueRecord ("r5").data ("s1").data 4 Speaker.CHAT
           ("zzzzzabczzzz").data
         relevance := calculateRelevance ("zzzzzabczzzz").data
           (({ keyword := some ("abc").data } : SearchCriteria).keyword.getD [])
         highlights := extractHighlights ("zzzzzabczzzz").data
           (({ keyword := some ("abc").data } : SearchCriteria).keyword.getD [])
         } : SearchResult)
        ∈ search
          [mkDialogueRecord ("r5").data ("s1").data 4 Speaker.CHAT
            ("zzzzzabczzzz").data]
          ({ keyword := some ("abc").data } : SearchCriteria) := by
    simp only [search, sortByRelevance, mem_insertionSort]
    exact List.mem_map_of_mem _ (by decide)
  refine ⟨hmem, ?_, by decide, by decide⟩
  exact (claim1_relevance_formula _ _ _ hmem).2 ("abc").data rfl (by decide)
    (by decide) (by decide)

/-- **C1 (counterexample to the claim as stated).** With the keyword
`"."` — a regex metacharacter — over the text `"hello.worldzzzz"`, the
keyword occurs literally once at index 5, so the claim's formula gives
`min(1, 0.3 + 1*0.2 + (1 - 5/15)*0.5) = 5/6`; but the code builds
`new RegExp(".", 'g')`, whose wildcard matches all 15 characters, and
the record is returned with relevance `1 ≠ 5/6`. -/
theorem claim1_regex_keyword_counterexample :
    ({ record := mkDialogueRecord ("r6").data ("s1").data 5 Speaker.CHAT
         ("hello.worldzzzz").data
       relevance := calculateRelevance ("hello.worldzzzz").data
         (({ keyword := some (".").data } : SearchCriteria).keyword.getD [])
       highlights := extractHighlights ("hello.worldzzzz").data
         (({ keyword := some (".").data } : SearchCriteria).keyword.getD [])
       } : SearchResult)
      ∈ search
        [mkDialogueRecord ("r6").data ("s1").data 5 Speaker.CHAT
          ("hello.worldzzzz").data]
        ({ keyword := some (".").data } : SearchCriteria)
    ∧ containsSub (lowerStr ("hello.worldzzzz").data)
        (lowerStr (".").data) = true
    ∧ calculateRelevance ("hello.worldzzzz").data
        (({ keyword := some (".").data } : SearchCriteria).keyword.getD [])
      = 1
    ∧ min 1 (3/10
        + (litCount (lowerStr (".").data)
            (lowerStr ("hello.worldzzzz").data) : ℚ) * (2/10)
        + (max 0 (1 - ((firstMatchPos (lowerStr (".").data)
                (lowerStr ("hello.worldzzzz").data)).getD 0 : ℚ)
              / ((("hello.worldzzzz").data.length : ℕ) : ℚ))) * (5/10))
      = 5/6
    ∧ (1 : ℚ) ≠ 5/6 := by
  have hmem :
      ({ record := mkDialogueRecord ("r6").data ("s1").data 5 Speaker.CHAT
           ("hello.worldzzzz").data
         relevance := calculateRelevance ("hello.worldzzzz").data
           (({ keyword := some (".").data } : SearchCriteria).keyword.getD [])
         highlights := extractHighlights ("hello.worldzzzz").data
           (({ keyword := some (".").data } : SearchCriteria).keyword.getD [])
         } : SearchResult)
        ∈ search
          [mkDialogueRecord ("r6").data ("s1").data 5 Speaker.CHAT
            ("hello.worldzzzz").data]
          ({ keyword := some (".").data } : SearchCriteria) := by
    simp only [search, sortByRelevance, mem_insertionSort]
    exact List.mem_map_of_mem _ (by decide)
  refine ⟨hmem, by decide, ?_, ?_, by norm_num⟩
  · have hsub : containsSub (lowerStr ("hello.worldzzzz").data)
        (lowerStr (".").data) = true := by decide
    have hkw : ((".").data).isEmpty = false := by decide
    have hcount : jsRegexCount (lowerStr (".").data)
        (lowerStr ("hello.worldzzzz").data) = 15 := by decide
    have hpos : firstMatchPos (lowerStr (".").data)
        (lowerStr ("hello.worldzzzz").data) = some 5 := by decide
    have hlen : (lowerStr ("hello.worldzzzz").data).length = 15 := by decide
    simp only [Option.getD_some, calculateRelevance, hkw, Bool.false_eq_true,
      if_false, hsub, if_true, hcount, hpos, hlen]
    rw [max_eq_right (by norm_num)]
    rw [min_eq_left (by norm_num)]
  · have hcount : litCount (lowerStr (".").data)
        (lowerStr ("hello.worldzzzz").data) = 1 := by decide
    have hpos : firstMatchPos (lowerStr (".").data)
        (lowerStr ("hello.worldzzzz").data) = some 5 := by decide
    have hlen : ((("hello.worldzzzz").data).length) = 15 := by decide
    simp only [Option.getD_some, hcount, hpos, hlen]
    rw [max_eq_right (by norm_num)]
    rw [min_eq_right (by norm_num)]
    norm_num

end DialogueRecorder
